import Mathlib

/-!
Shallow embedding of the bakery-shop data-access layer
(`app/model/categories_table.py`, `app/model/products_table.py`,
`app/model/customers_table.py`).

The database is modelled as three in-memory tables (lists of rows).  Each
repository method becomes a pure Lean function; methods that mutate storage
take and return the database state explicitly.  Python dictionaries used as
input payloads are modelled as association lists (for the categories table,
where a raw key access can raise `KeyError`) or as structures of `Option`
fields (for the products table, where every access is guarded by
`d[k] if k in d else None`).  SQL row ids generated by the storage engine are
modelled as `max existing id + 1`.
-/

namespace Bakery

/-- A row of the CATEGORIES table: (CategoryID, CategoryName). -/
structure Category where
  categoryID : Int
  categoryName : String
deriving DecidableEq, Repr

/-- A row of the PRODUCTS table:
(ProductID, CategoryID, ProductCode, ProductName, Price).
Prices are modelled as integers; the only numeric operation the code
performs on a price is the comparison with 0. -/
structure Product where
  productID : Int
  categoryID : Int
  productCode : String
  productName : String
  price : Int
deriving DecidableEq, Repr

/-- A row of the CUSTOMERS table; only LastName is ever used for ordering. -/
structure Customer where
  customerID : Int
  lastName : String
  firstName : String
deriving DecidableEq, Repr

/-- The whole database state. -/
structure DB where
  categories : List Category
  products : List Product
  customers : List Customer
deriving DecidableEq, Repr

/-- An uncaught Python exception escaping a repository method.  The
repository methods catch only `sqlite3.Error`; a `KeyError` from a raw
dictionary access propagates to the caller. -/
inductive PyError where
  | keyError (key : String)
deriving DecidableEq, Repr

/-- Fresh CategoryID for an INSERT, modelling the SQLite rowid behaviour
(one more than the largest existing id). -/
def nextCategoryId (db : DB) : Int :=
  (db.categories.foldl (fun m c => max m c.categoryID) 0) + 1

/-- Fresh ProductID for an INSERT, modelling the SQLite rowid behaviour. -/
def nextProductId (db : DB) : Int :=
  (db.products.foldl (fun m p => max m p.productID) 0) + 1

/-- CPython int identity: `a is b` for two separately constructed int
objects (one freshly built by the sqlite3 driver, one obtained from
`int(product_id)`).  Such objects are the same object exactly when they are
equal and lie in the interpreter's cached small-int range [-5, 256].
This models the `tmp_product["ProductID"] is not int(product_id)` comparison
in `ProductsTable.validate_updated_code`. -/
def pyIntIs (a b : Int) : Bool :=
  a == b && (-5 ≤ a && a ≤ 256)

/-- `CategoriesTable.get_by_id`: SELECT * FROM CATEGORIES WHERE CategoryID = ?,
returning the first matching row or None. -/
def CategoriesTable.get_by_id (category_id : Int) (db : DB) : Option Category :=
  db.categories.find? (fun c => c.categoryID == category_id)

/-- `CategoriesTable.get_by_name`: SELECT * FROM CATEGORIES WHERE
CategoryName = ? (SQLite BINARY collation, i.e. case-sensitive exact match),
returning the first matching row or None. -/
def CategoriesTable.get_by_name (category_name : String) (db : DB) : Option Category :=
  db.categories.find? (fun c => c.categoryName == category_name)

/-- `CategoriesTable.validate_name`: None is missing, the empty string is
rejected, a name already present in the table is rejected. -/
def CategoriesTable.validate_name (name : Option String) (db : DB) : Bool × String :=
  match name with
  | none => (false, "Missing category name.")
  | some s =>
    if s.length == 0 then (false, "Category name cannot be empty.")
    else
      match CategoriesTable.get_by_name s db with
      | some _ => (false, "Category name exists already.")
      | none => (true, "Category name is valid.")

/-- `CategoriesTable.insert`.  The method starts with the raw dictionary
access `category_data["category_name"]`, so a payload without that key
raises `KeyError` (the surrounding try block catches only `sqlite3.Error`).
A present key whose value fails validation yields `(False, message, None)`
without touching the table; otherwise the row is written and re-read by
name. -/
def CategoriesTable.insert (category_data : List (String × Option String)) (db : DB) :
    Except PyError ((Bool × String × Option Category) × DB) :=
  match category_data.lookup "category_name" with
  | none => Except.error (PyError.keyError "category_name")
  | some category_name =>
    let r := CategoriesTable.validate_name category_name db
    if !r.1 then Except.ok ((false, r.2, none), db)
    else
      match category_name with
      | some s =>
        let db2 : DB := { db with categories := db.categories ++ [⟨nextCategoryId db, s⟩] }
        Except.ok ((true, "The category has been inserted.", CategoriesTable.get_by_name s db2), db2)
      | none => Except.ok ((false, r.2, none), db)

/-- `ProductsTable.get_by_id`: first PRODUCTS row with the given ProductID. -/
def ProductsTable.get_by_id (product_id : Int) (db : DB) : Option Product :=
  db.products.find? (fun p => p.productID == product_id)

/-- `ProductsTable.get_by_code`: first PRODUCTS row with the given
ProductCode. -/
def ProductsTable.get_by_code (product_code : String) (db : DB) : Option Product :=
  db.products.find? (fun p => p.productCode == product_code)

/-- `ProductsTable.get_by_category_id`: all PRODUCTS rows with the given
CategoryID. -/
def ProductsTable.get_by_category_id (category_id : Int) (db : DB) : List Product :=
  db.products.filter (fun p => p.categoryID == category_id)

/-- `CategoriesTable.delete`.  A missing id returns the bare Python `None`
(modelled as `none`, distinct from the `(success, message, data)` triple
returned on the other paths).  A category referenced by at least one product
is refused; otherwise the row is removed. -/
def CategoriesTable.delete (category_id : Int) (db : DB) :
    Option (Bool × String × Option Category) × DB :=
  match CategoriesTable.get_by_id category_id db with
  | none => (none, db)
  | some category =>
    if ProductsTable.get_by_category_id category_id db ≠ [] then
      (some (false, "The category cannot be deleted since it contains products.", none), db)
    else
      (some (true, "The category has been deleted.", some category),
        { db with categories := db.categories.filter (fun c => !(c.categoryID == category_id)) })

/-- The input payload of `ProductsTable.insert`/`update`.  Every field is
read in the source as `product_data[k] if k in product_data else None`, so an
absent key and a key mapped to Python None are both modelled as `none`. -/
structure ProductData where
  category_id : Option Int
  product_code : Option String
  product_name : Option String
  price : Option Int
deriving DecidableEq, Repr

/-- `ProductsTable.validate_code` (insert path): present, non-empty, and not
already used by any product. -/
def ProductsTable.validate_code (code : Option String) (db : DB) : Bool × String :=
  match code with
  | none => (false, "Missing product code.")
  | some c =>
    if c.length == 0 then (false, "Product code cannot be empty.")
    else
      match ProductsTable.get_by_code c db with
      | some _ => (false, "Product code exists already.")
      | none => (true, "Product code is valid.")

/-- `ProductsTable.validate_updated_code` (update path): present, non-empty,
and — as written in the source — rejected when a product owns the code and
`tmp_product["ProductID"] is not int(product_id)`, an identity (not
equality) test on ints, modelled by `pyIntIs`. -/
def ProductsTable.validate_updated_code (code : Option String) (product_id : Int)
    (db : DB) : Bool × String :=
  match code with
  | none => (false, "Missing product code.")
  | some c =>
    if c.length == 0 then (false, "Product code cannot be empty.")
    else
      match ProductsTable.get_by_code c db with
      | some tmp_product =>
        if !(pyIntIs tmp_product.productID product_id) then
          (false, "Product code exists already.")
        else (true, "Product code is valid.")
      | none => (true, "Product code is valid.")

/-- `ProductsTable.validate_name`: present, non-empty, at least 3 characters
(the too-short message below is verbatim from the source, typo included). -/
def ProductsTable.validate_name (name : Option String) : Bool × String :=
  match name with
  | none => (false, "Missing product name.")
  | some s =>
    if s.length == 0 then (false, "Product name cannot be empty.")
    else if s.length < 3 then (false, "Product name must have at least characters.")
    else (true, "Product name is valid.")

/-- `ProductsTable.validate_category_id`: present and referencing an
existing category row. -/
def ProductsTable.validate_category_id (category_id : Option Int) (db : DB) : Bool × String :=
  match category_id with
  | none => (false, "Missing category id.")
  | some cid =>
    match CategoriesTable.get_by_id cid db with
    | none => (false, "Category ID does not exist.")
    | some _ => (true, "Category id is valid.")

/-- `ProductsTable.validate_price`: present and nonnegative. -/
def ProductsTable.validate_price (price : Option Int) : Bool × String :=
  match price with
  | none => (false, "Missing price.")
  | some p =>
    if p < 0 then (false, "Price must be a nonnegative value.")
    else (true, "Price is valid.")

/-- Code point ranges (inclusive) of the characters matched by the Python
regular-expression class \d on str patterns: exactly the Unicode decimal
digits (general category Nd), as tabulated by the CPython Unicode
character database. -/
def pyDigitRanges : List (Nat × Nat) :=
  [(0x30, 0x39), (0x660, 0x669), (0x6F0, 0x6F9), (0x7C0, 0x7C9), (0x966, 0x96F),
   (0x9E6, 0x9EF), (0xA66, 0xA6F), (0xAE6, 0xAEF), (0xB66, 0xB6F), (0xBE6, 0xBEF),
   (0xC66, 0xC6F), (0xCE6, 0xCEF), (0xD66, 0xD6F), (0xDE6, 0xDEF), (0xE50, 0xE59),
   (0xED0, 0xED9), (0xF20, 0xF29), (0x1040, 0x1049), (0x1090, 0x1099), (0x17E0, 0x17E9),
   (0x1810, 0x1819), (0x1946, 0x194F), (0x19D0, 0x19D9), (0x1A80, 0x1A89), (0x1A90, 0x1A99),
   (0x1B50, 0x1B59), (0x1BB0, 0x1BB9), (0x1C40, 0x1C49), (0x1C50, 0x1C59), (0xA620, 0xA629),
   (0xA8D0, 0xA8D9), (0xA900, 0xA909), (0xA9D0, 0xA9D9), (0xA9F0, 0xA9F9), (0xAA50, 0xAA59),
   (0xABF0, 0xABF9), (0xFF10, 0xFF19), (0x104A0, 0x104A9), (0x10D30, 0x10D39), (0x11066, 0x1106F),
   (0x110F0, 0x110F9), (0x11136, 0x1113F), (0x111D0, 0x111D9), (0x112F0, 0x112F9), (0x11450, 0x11459),
   (0x114D0, 0x114D9), (0x11650, 0x11659), (0x116C0, 0x116C9), (0x11730, 0x11739), (0x118E0, 0x118E9),
   (0x11950, 0x11959), (0x11C50, 0x11C59), (0x11D50, 0x11D59), (0x11DA0, 0x11DA9), (0x16A60, 0x16A69),
   (0x16AC0, 0x16AC9), (0x16B50, 0x16B59), (0x1D7CE, 0x1D7FF), (0x1E140, 0x1E149), (0x1E2F0, 0x1E2F9),
   (0x1E950, 0x1E959), (0x1FBF0, 0x1FBF9)]

/-- A character matched by the Python regular-expression class \d. -/
def pyIsDigit (c : Char) : Bool :=
  pyDigitRanges.any (fun r => r.1 ≤ c.toNat && c.toNat ≤ r.2)

/-- The first alternative body of the source pattern, \d*[.]\d\d: any run
of digits, then a dot, then exactly two digits. -/
def dotTwoDigitsForm (s : List Char) : Bool :=
  match s.reverse with
  | d2 :: d1 :: '.' :: rest => pyIsDigit d1 && pyIsDigit d2 && rest.all pyIsDigit
  | _ => false

/-- A body of the alternation \d*[.]\d\d|\d*, without the anchors. -/
def priceRegexBody (s : List Char) : Bool :=
  dotTwoDigitsForm s || s.all pyIsDigit

/-- Semantics of `re.search("^\d*[.]\d\d$|^\d*$", s)` from
`ProductsTable.validate_price_string`: with no MULTILINE flag, ^ matches
only at the start of the string and $ matches at the end of the string or
just before a newline that is the last character, so the search succeeds
exactly when an alternation body matches the whole string, or the string
ends in a newline and a body matches everything before that newline. -/
def matchesPriceRegex (s : List Char) : Bool :=
  priceRegexBody s ||
    (match s.reverse with
     | c :: rest => c == '\n' && priceRegexBody rest.reverse
     | [] => false)

/-- `ProductsTable.validate_price_string`: present, non-empty, and matching
the regular expression above. -/
def ProductsTable.validate_price_string (price : Option String) : Bool × String :=
  match price with
  | none => (false, "Missing price.")
  | some s =>
    if s.length == 0 then (false, "Price cannot be empty.")
    else if !matchesPriceRegex s.data then
      (false, "Price must be a nonnegative value with two decimal places.")
    else (true, "Price is valid.")

/-- `ProductsTable.validate_data_for_insert`: code, then name, then
category id, then price, returning at the first failure. -/
def ProductsTable.validate_data_for_insert (product_data : ProductData) (db : DB) :
    Bool × String :=
  let r := ProductsTable.validate_code product_data.product_code db
  if !r.1 then (false, r.2) else
  let r := ProductsTable.validate_name product_data.product_name
  if !r.1 then (false, r.2) else
  let r := ProductsTable.validate_category_id product_data.category_id db
  if !r.1 then (false, r.2) else
  let r := ProductsTable.validate_price product_data.price
  if !r.1 then (false, r.2) else
  (true, "The product data is valid.")

/-- `ProductsTable.validate_data_for_update`: the existence check on the
product id runs first, then the same four field checks as for insert, with
`validate_updated_code` in place of `validate_code`. -/
def ProductsTable.validate_data_for_update (product_id : Int) (product_data : ProductData)
    (db : DB) : Bool × String :=
  match ProductsTable.get_by_id product_id db with
  | none => (false, "There is no product with the specified id.")
  | some _ =>
    let r := ProductsTable.validate_updated_code product_data.product_code product_id db
    if !r.1 then (false, r.2) else
    let r := ProductsTable.validate_name product_data.product_name
    if !r.1 then (false, r.2) else
    let r := ProductsTable.validate_category_id product_data.category_id db
    if !r.1 then (false, r.2) else
    let r := ProductsTable.validate_price product_data.price
    if !r.1 then (false, r.2) else
    (true, "The product data is valid.")

/-- `ProductsTable.insert`: validate, then INSERT and re-read the row by
code.  When validation has passed, every field is necessarily `some` (each
validator rejects `none`), so the fallback match arm is unreachable.  The
success message has no final period, as in the source. -/
def ProductsTable.insert (product_data : ProductData) (db : DB) :
    (Bool × String × Option Product) × DB :=
  let v := ProductsTable.validate_data_for_insert product_data db
  if !v.1 then ((false, v.2, none), db)
  else
    match product_data.category_id, product_data.product_code,
          product_data.product_name, product_data.price with
    | some cid, some code, some name, some price =>
      let db2 : DB :=
        { db with products := db.products ++ [⟨nextProductId db, cid, code, name, price⟩] }
      ((true, "The product has been inserted", ProductsTable.get_by_code code db2), db2)
    | _, _, _, _ => ((false, v.2, none), db)

/-- `ProductsTable.update`: validate, then UPDATE every row with the given
ProductID and re-read the row by code. -/
def ProductsTable.update (product_id : Int) (product_data : ProductData) (db : DB) :
    (Bool × String × Option Product) × DB :=
  let v := ProductsTable.validate_data_for_update product_id product_data db
  if !v.1 then ((false, v.2, none), db)
  else
    match product_data.category_id, product_data.product_code,
          product_data.product_name, product_data.price with
    | some cid, some code, some name, some price =>
      let db2 : DB :=
        { db with products := db.products.map (fun p =>
            if p.productID == product_id then
              { p with categoryID := cid, productCode := code,
                       productName := name, price := price }
            else p) }
      ((true, "The product has been updated.", ProductsTable.get_by_code code db2), db2)
    | _, _, _, _ => ((false, v.2, none), db)

/-- `CustomersTable.get`: SELECT * FROM CUSTOMERS ORDER BY LastName.  The
method only reads; it is modelled as a pure function of the state. -/
def CustomersTable.get (db : DB) : List Customer :=
  db.customers.mergeSort (fun a b => decide (a.lastName ≤ b.lastName))

/-- The data-model invariant on categories from the specification: every
category name is a non-empty string. -/
def CategoriesWF (db : DB) : Prop :=
  ∀ c ∈ db.categories, c.categoryName ≠ ""

instance (db : DB) : Decidable (CategoriesWF db) := by
  unfold CategoriesWF; infer_instance

/-- First failing check of a list of (valid, message) results, as the
specification words it: the outcome of a validation pass is the result of
the first check that fails, and the fixed success result when none does. -/
def firstFailing : List (Bool × String) → Bool × String
  | [] => (true, "The product data is valid.")
  | r :: rest => if r.1 then firstFailing rest else (false, r.2)

/-- Helper: a non-empty string has a length-check that evaluates to false. -/
theorem length_beq_zero_eq_false_of_ne_empty (s : String) (h : s ≠ "") :
    (s.length == 0) = false := by
  rw [beq_eq_false_iff_ne]
  intro hl
  exact h (String.ext (List.length_eq_zero.mp hl))

/-- C1: refuted by the code.  `validate_updated_code` compares the owning
product's id with the updated product's id by Python object identity
(`is not int(product_id)`), which holds for equal ints only inside the
interpreter's small-int cache.  Updating the product with id 257 with its
own unchanged code "B257" (all other fields valid) is therefore rejected
with "Product code exists already." and the table is left unchanged, while
the same update for a product with the cached id 5 passes the code check,
contradicting the claim that an unchanged own code is always accepted. -/
theorem C1_update_own_code_rejected_for_large_id :
    ProductsTable.update 257 ⟨some 1, some "B257", some "Baguette", some 3⟩
        ⟨[⟨1, "Bread"⟩], [⟨257, 1, "B257", "Baguette", 3⟩], []⟩ =
      ((false, "Product code exists already.", none),
        ⟨[⟨1, "Bread"⟩], [⟨257, 1, "B257", "Baguette", 3⟩], []⟩)
    ∧ ProductsTable.validate_updated_code (some "B5") 5
        ⟨[⟨1, "Bread"⟩], [⟨5, 1, "B5", "Roll", 2⟩], []⟩ = (true, "Product code is valid.") :=
  ⟨by decide, by decide⟩

/-- C2: refuted by the code.  `CategoriesTable.insert` reads
`category_data["category_name"]` before any validation, so a payload
without that key raises an uncaught `KeyError` (the try block catches only
`sqlite3.Error`) instead of returning a `(False, message, None)` tuple;
the table is left unchanged because the exception precedes any write. -/
theorem C2_insert_without_name_key_raises (category_data : List (String × Option String))
    (db : DB) (h : category_data.lookup "category_name" = none) :
    CategoriesTable.insert category_data db =
      Except.error (PyError.keyError "category_name") := by
  unfold CategoriesTable.insert
  rw [h]

theorem C2_insert_without_name_key_raises_witness :
    ([] : List (String × Option String)).lookup "category_name" = none ∧
    CategoriesTable.insert [] ⟨[], [], []⟩ = Except.error (PyError.keyError "category_name") :=
  ⟨rfl, C2_insert_without_name_key_raises [] ⟨[], [], []⟩ rfl⟩

/-- C9: for a product id matching no product, `ProductsTable.update`
returns `(False, "There is no product with the specified id.", None)` for
any payload and leaves the products table unchanged; the existence check is
the first step of `validate_data_for_update`. -/
theorem C9_update_missing_product_fails (product_id : Int) (product_data : ProductData)
    (db : DB) (h : ProductsTable.get_by_id product_id db = none) :
    ProductsTable.update product_id product_data db =
      ((false, "There is no product with the specified id.", none), db) := by
  unfold ProductsTable.update ProductsTable.validate_data_for_update
  rw [h]
  rfl

theorem C9_update_missing_product_fails_witness :
    ProductsTable.get_by_id 1 ⟨[], [], []⟩ = none ∧
    ProductsTable.update 1 ⟨none, none, none, none⟩ ⟨[], [], []⟩ =
      ((false, "There is no product with the specified id.", none), ⟨[], [], []⟩) :=
  ⟨rfl, C9_update_missing_product_fails 1 ⟨none, none, none, none⟩ ⟨[], [], []⟩ rfl⟩

/-- C10: for a category id matching no category, `CategoriesTable.delete`
returns the bare Python `None` (not a `(success, message, data)` triple)
and leaves the categories table unchanged. -/
theorem C10_delete_missing_category_returns_none (category_id : Int) (db : DB)
    (h : CategoriesTable.get_by_id category_id db = none) :
    CategoriesTable.delete category_id db = (none, db) := by
  unfold CategoriesTable.delete
  rw [h]

theorem C10_delete_missing_category_returns_none_witness :
    CategoriesTable.get_by_id 7 ⟨[], [], []⟩ = none ∧
    CategoriesTable.delete 7 ⟨[], [], []⟩ = (none, ⟨[], [], []⟩) :=
  ⟨rfl, C10_delete_missing_category_returns_none 7 ⟨[], [], []⟩ rfl⟩

/-- C3: inserting a category whose name case-sensitively equals the name of
an existing category fails with "Category name exists already." and leaves
the category rows unchanged.  The database is assumed to satisfy the data
model invariant that category names are non-empty. -/
theorem C3_insert_duplicate_category_name_fails (db : DB) (name : String)
    (hwf : CategoriesWF db) (hex : ∃ c ∈ db.categories, c.categoryName = name) :
    CategoriesTable.insert [("category_name", some name)] db =
      Except.ok ((false, "Category name exists already.", none), db) := by
  obtain ⟨c, hc, hcn⟩ := hex
  have hne : name ≠ "" := by rw [← hcn]; exact hwf c hc
  obtain ⟨c2, hfind⟩ : ∃ x, CategoriesTable.get_by_name name db = some x := by
    rw [← Option.isSome_iff_exists]
    unfold CategoriesTable.get_by_name
    rw [List.find?_isSome]
    exact ⟨c, hc, by simp [hcn]⟩
  have hv : CategoriesTable.validate_name (some name) db =
      (false, "Category name exists already.") := by
    simp only [CategoriesTable.validate_name,
      length_beq_zero_eq_false_of_ne_empty name hne, hfind]
    simp
  have hlk : List.lookup "category_name" [("category_name", some name)] = some (some name) := rfl
  simp only [CategoriesTable.insert, hlk, hv]
  simp

theorem C3_insert_duplicate_category_name_fails_witness :
    CategoriesWF ⟨[⟨1, "Bread"⟩], [], []⟩ ∧
    (∃ c ∈ (⟨[⟨1, "Bread"⟩], [], []⟩ : DB).categories, c.categoryName = "Bread") ∧
    CategoriesTable.insert [("category_name", some "Bread")] ⟨[⟨1, "Bread"⟩], [], []⟩ =
      Except.ok ((false, "Category name exists already.", none), ⟨[⟨1, "Bread"⟩], [], []⟩) :=
  ⟨by decide, by decide,
    C3_insert_duplicate_category_name_fails ⟨[⟨1, "Bread"⟩], [], []⟩ "Bread"
      (by decide) (by decide)⟩

/-- C4: deleting a category that is referenced by at least one product
fails with "The category cannot be deleted since it contains products."
and leaves the whole database state — the category row and all product
rows — unchanged, so no category is ever deleted while a product
references it. -/
theorem C4_delete_referenced_category_fails (db : DB) (category_id : Int)
    (hcat : (CategoriesTable.get_by_id category_id db).isSome = true)
    (hprod : ∃ p ∈ db.products, p.categoryID = category_id) :
    CategoriesTable.delete category_id db =
      (some (false, "The category cannot be deleted since it contains products.", none), db) := by
  obtain ⟨c, hc⟩ := Option.isSome_iff_exists.mp hcat
  have hne : ProductsTable.get_by_category_id category_id db ≠ [] := by
    unfold ProductsTable.get_by_category_id
    obtain ⟨p, hp, hpc⟩ := hprod
    intro hnil
    have hmem : p ∈ db.products.filter (fun q => q.categoryID == category_id) :=
      List.mem_filter.mpr ⟨hp, by simp [hpc]⟩
    rw [hnil] at hmem
    exact List.not_mem_nil p hmem
  simp only [CategoriesTable.delete, hc]
  rw [if_pos hne]

theorem C4_delete_referenced_category_fails_witness :
    (CategoriesTable.get_by_id 1 ⟨[⟨1, "Bread"⟩], [⟨5, 1, "B5", "Roll", 2⟩], []⟩).isSome = true ∧
    (∃ p ∈ (⟨[⟨1, "Bread"⟩], [⟨5, 1, "B5", "Roll", 2⟩], []⟩ : DB).products, p.categoryID = 1) ∧
    CategoriesTable.delete 1 ⟨[⟨1, "Bread"⟩], [⟨5, 1, "B5", "Roll", 2⟩], []⟩ =
      (some (false, "The category cannot be deleted since it contains products.", none),
        ⟨[⟨1, "Bread"⟩], [⟨5, 1, "B5", "Roll", 2⟩], []⟩) :=
  ⟨by decide, by decide,
    C4_delete_referenced_category_fails ⟨[⟨1, "Bread"⟩], [⟨5, 1, "B5", "Roll", 2⟩], []⟩ 1
      (by decide) (by decide)⟩

/-- C5: insert validation runs the four field checks in the fixed order
code, name, category id, price, and short-circuits on the first failure:
the result of `validate_data_for_insert` is exactly the result of the first
failing check in that order (and the fixed success result when all four
pass). -/
theorem C5_insert_validation_order_and_short_circuit (d : ProductData) (db : DB) :
    ProductsTable.validate_data_for_insert d db =
      firstFailing [ProductsTable.validate_code d.product_code db,
        ProductsTable.validate_name d.product_name,
        ProductsTable.validate_category_id d.category_id db,
        ProductsTable.validate_price d.price] := by
  unfold ProductsTable.validate_data_for_insert
  generalize ProductsTable.validate_code d.product_code db = r1
  generalize ProductsTable.validate_name d.product_name = r2
  generalize ProductsTable.validate_category_id d.category_id db = r3
  generalize ProductsTable.validate_price d.price = r4
  obtain ⟨b1, m1⟩ := r1
  obtain ⟨b2, m2⟩ := r2
  obtain ⟨b3, m3⟩ := r3
  obtain ⟨b4, m4⟩ := r4
  cases b1 <;> cases b2 <;> cases b3 <;> cases b4 <;> simp [firstFailing]

/-- C6: when code, name and category id validate successfully but the price
is negative, `ProductsTable.insert` fails with the nonnegative-price
message and inserts no row. -/
theorem C6_negative_price_insert_fails (d : ProductData) (db : DB) (p : Int)
    (hcode : (ProductsTable.validate_code d.product_code db).1 = true)
    (hname : (ProductsTable.validate_name d.product_name).1 = true)
    (hcat : (ProductsTable.validate_category_id d.category_id db).1 = true)
    (hp : d.price = some p) (hneg : p < 0) :
    ProductsTable.insert d db = ((false, "Price must be a nonnegative value.", none), db) := by
  have hprice : ProductsTable.validate_price d.price =
      (false, "Price must be a nonnegative value.") := by
    rw [hp]
    simp only [ProductsTable.validate_price]
    rw [if_pos hneg]
  have hv : ProductsTable.validate_data_for_insert d db =
      (false, "Price must be a nonnegative value.") := by
    unfold ProductsTable.validate_data_for_insert
    rcases h1 : ProductsTable.validate_code d.product_code db with ⟨b1, m1⟩
    rw [h1] at hcode
    rcases h2 : ProductsTable.validate_name d.product_name with ⟨b2, m2⟩
    rw [h2] at hname
    rcases h3 : ProductsTable.validate_category_id d.category_id db with ⟨b3, m3⟩
    rw [h3] at hcat
    simp only at hcode hname hcat
    subst hcode hname hcat
    simp [hprice]
  unfold ProductsTable.insert
  rw [hv]
  rfl

theorem C6_negative_price_insert_fails_witness :
    (ProductsTable.validate_code (some "C9") ⟨[⟨1, "Bread"⟩], [], []⟩).1 = true ∧
    ProductsTable.insert ⟨some 1, some "C9", some "Roll", some (-1)⟩ ⟨[⟨1, "Bread"⟩], [], []⟩ =
      ((false, "Price must be a nonnegative value.", none), ⟨[⟨1, "Bread"⟩], [], []⟩) :=
  ⟨by decide,
    C6_negative_price_insert_fails ⟨some 1, some "C9", some "Roll", some (-1)⟩
      ⟨[⟨1, "Bread"⟩], [], []⟩ (-1) (by decide) (by decide) (by decide) rfl (by decide)⟩

/-- Helper: acceptance of `validate_price_string` on a present value is
non-emptiness plus a match of the source regular expression. -/
theorem validate_price_string_isValid_iff (s : String) :
    (ProductsTable.validate_price_string (some s)).1 = true ↔
      (s.data ≠ [] ∧ matchesPriceRegex s.data = true) := by
  have hlen : s.length = s.data.length := rfl
  simp only [ProductsTable.validate_price_string]
  cases hz : (s.length == 0) with
  | true =>
    have hdata : s.data = [] := by
      rw [beq_iff_eq, hlen, List.length_eq_zero] at hz
      exact hz
    simp [hdata]
  | false =>
    have hdata : s.data ≠ [] := by
      rw [beq_eq_false_iff_ne, hlen] at hz
      intro hnil
      exact hz (by simp [hnil])
    cases hm : matchesPriceRegex s.data with
    | true => simp [hm, hdata]
    | false => simp [hm, hdata]

/-- Helper: the trailing-newline branch of the regex match, phrased as an
append rather than by the reversed-list implementation. -/
theorem matchesPriceRegex_eq_true_iff (l : List Char) :
    matchesPriceRegex l = true ↔
      (priceRegexBody l = true ∨
        ∃ t : List Char, l = t ++ ['\n'] ∧ priceRegexBody t = true) := by
  unfold matchesPriceRegex
  rw [Bool.or_eq_true]
  refine or_congr Iff.rfl ?_
  cases hrev : l.reverse with
  | nil =>
    constructor
    · intro h
      simp at h
    · rintro ⟨t, ht, hb⟩
      have hcontra : l.reverse = '\n' :: t.reverse := by rw [ht]; simp
      rw [hrev] at hcontra
      exact absurd hcontra (by simp)
  | cons c rest =>
    have hl : l = rest.reverse ++ [c] := by
      have h1 := congrArg List.reverse hrev
      simpa using h1
    simp only [Bool.and_eq_true, beq_iff_eq]
    constructor
    · rintro ⟨hc, hb⟩
      exact ⟨rest.reverse, by rw [hl, hc], hb⟩
    · rintro ⟨t, ht, hb⟩
      rw [ht] at hrev
      have h2 : c = '\n' ∧ rest = t.reverse := by simpa using hrev.symm
      obtain ⟨hc, hrest⟩ := h2
      refine ⟨hc, ?_⟩
      rw [hrest]
      simpa using hb

/-- C7: counterexample to the claim as stated.  The $ anchor of the source
pattern also matches just before a newline that ends the string, so
`validate_price_string` accepts "123n-escape": a non-empty string that
matches neither alternation body (a newline is not a digit).  The
validator therefore does not accept exactly the non-empty strings matching
the digits-dot-two-digits or digits-only pattern. -/
theorem C7_trailing_newline_accepted_counterexample :
    ProductsTable.validate_price_string (some "123\n") = (true, "Price is valid.") ∧
    priceRegexBody "123\n".data = false :=
  ⟨by decide, by decide⟩

/-- C7 (amended): `validate_price_string` accepts exactly the non-empty
strings that match the digits-dot-two-digits or digits-only pattern, or
that consist of such a match followed by a single final newline (digits
being the Unicode decimal digits matched by the Python class \d); in
particular "12.34" is accepted, "12.3" is rejected, and "" is rejected
with the empty-price message. -/
theorem C7_validate_price_string_amended_characterisation :
    ProductsTable.validate_price_string (some "12.34") = (true, "Price is valid.") ∧
    ProductsTable.validate_price_string (some "12.3") =
      (false, "Price must be a nonnegative value with two decimal places.") ∧
    ProductsTable.validate_price_string (some "") = (false, "Price cannot be empty.") ∧
    ∀ s : String, (ProductsTable.validate_price_string (some s)).1 = true ↔
      (s.data ≠ [] ∧ (priceRegexBody s.data = true ∨
        ∃ t : List Char, s.data = t ++ ['\n'] ∧ priceRegexBody t = true)) := by
  refine ⟨by decide, by decide, by decide, ?_⟩
  intro s
  rw [validate_price_string_isValid_iff s, matchesPriceRegex_eq_true_iff s.data]

/-- C8: listing customers returns a permutation of the customers table
(each row exactly once) that is sorted by surname in ascending order, for
every database state; the operation is a pure read of the state. -/
theorem C8_customers_listed_sorted_by_surname (db : DB) :
    (CustomersTable.get db).Perm db.customers ∧
    List.Pairwise (fun a b : Customer => a.lastName ≤ b.lastName) (CustomersTable.get db) := by
  constructor
  · exact List.mergeSort_perm db.customers _
  · have htrans : ∀ a b c : Customer,
        decide (a.lastName ≤ b.lastName) = true →
        decide (b.lastName ≤ c.lastName) = true →
        decide (a.lastName ≤ c.lastName) = true := by
      intro a b c hab hbc
      rw [decide_eq_true_iff] at *
      exact le_trans hab hbc
    have htotal : ∀ a b : Customer,
        (decide (a.lastName ≤ b.lastName) || decide (b.lastName ≤ a.lastName)) = true := by
      intro a b
      rcases le_total a.lastName b.lastName with h | h
      · simp [h]
      · simp [h]
    have hs := @List.sorted_mergeSort Customer
      (fun a b => decide (a.lastName ≤ b.lastName)) htrans htotal db.customers
    exact hs.imp (fun h => of_decide_eq_true h)

end Bakery

